import Mathlib

/-!
Verification of the flipper device-bridge specification.

The development shallowly embeds two parts of the repository:

* the iOS device-tool bridge (`makeIOSBridge` and its four operations),
  whose implementation file is absent from the provided sources (only its
  Jest test suite is present), so the bridge is modelled from the spec's
  construction contract and operation table; and
* the Setup Doctor helpers `checkHasNewProblem` and `statusTypeAndMessage`
  from `desktop/flipper-ui-core/src/sandy-chrome/SetupDoctorScreen.tsx`,
  embedded directly from that source file.
-/

namespace IOSBridge

/-- Device kind classification: `emulator` (software-simulated) or
`physical` (real hardware), as consumed by `startLogListener`. -/
inductive DeviceKind where
  | emulator
  | physical
deriving DecidableEq, Repr

/-- Modelled from the spec: the immutable tagged variant resolved at
bridge-creation time — either the preferred tool (with its detected path)
or the fallback toolchain (spec section 9: "model it as an immutable tagged
variant Preferred / Fallback resolved at bridge-creation time"). -/
inductive ToolFamily where
  | preferred (path : String)
  | fallback
deriving DecidableEq, Repr

/-- Modelled from the spec: construction-time error taxonomy —
`NoToolchainAvailable` is fatal at construction (spec section 7). -/
inductive BridgeError where
  | noToolchainAvailable
deriving DecidableEq, Repr

/-- Modelled from the spec: operation-time error taxonomy —
`ProcessSpawnFailed` and `ProcessExitedNonZero` (spec sections 4.1 and 7). -/
inductive OpError where
  | processSpawnFailed (message : String)
  | processExitedNonZero (code : Int) (stderr : String)
deriving DecidableEq, Repr

/-- The name of the fallback toolchain command (`xcrun` in the test
suite's expectations). -/
def fallbackTool : String := "xcrun"

/-- Modelled from the spec: the preferred tool is usable when its path is
non-empty and either no detector was supplied or the detector resolves
true for that path (spec section 4.1, detection policy). The async
detector predicate is embedded as an optional boolean predicate. -/
def preferredUsable (preferredToolPath : String)
    (detector : Option (String → Bool)) : Bool :=
  preferredToolPath != "" &&
    (match detector with
     | none => true
     | some d => d preferredToolPath)

/-- Modelled from the spec: `makeBridge(preferredToolPath,
hasFallbackToolchain, preferredToolDetector?)`; the implementation file
`IOSBridge.ts` is absent from the sources, only its test suite is present.
Detection policy (spec section 4.1): preferred tool when usable, else the
fallback toolchain when `hasFallbackToolchain`, else construction fails
with `NoToolchainAvailable`. The returned capability handle is represented
by the resolved `ToolFamily`, of which every operation below is a pure
function. -/
def makeIOSBridge (preferredToolPath : String) (hasFallbackToolchain : Bool)
    (detector : Option (String → Bool)) : Except BridgeError ToolFamily :=
  if preferredUsable preferredToolPath detector then
    .ok (.preferred preferredToolPath)
  else if hasFallbackToolchain then
    .ok .fallback
  else
    .error .noToolchainAvailable

/-- A spawned external process invocation: command, argument vector, and
an optional environment override (`none` means no override). -/
structure SpawnCall where
  command : String
  args : List String
  env : Option (List (String × String))
deriving DecidableEq, Repr

/-- The style/predicate log-filter flags shared by both tool families'
emulator log invocations. -/
def logFilterFlags : List String :=
  ["--style", "json", "--predicate",
   "senderImagePath contains \"Containers\"", "--debug", "--info"]

/-- Modelled from the spec: `startLogListener(deviceId, deviceKind)`
dispatch (spec section 4.1 operation table). Preferred tool: spawn
`log --udid <id> --` followed by the filter flags when kind is emulator,
flags dropped when kind is physical, with the `PYTHONUNBUFFERED=1`
environment override. Fallback: spawn
`simctl spawn <id> log stream <filter flags>` with no override. -/
def startLogListener (family : ToolFamily) (deviceId : String)
    (kind : DeviceKind) : SpawnCall :=
  match family with
  | .preferred path =>
      { command := path
        args := ["log", "--udid", deviceId, "--"] ++
          (match kind with
           | .emulator => logFilterFlags
           | .physical => [])
        env := some [("PYTHONUNBUFFERED", "1")] }
  | .fallback =>
      { command := fallbackTool
        args := ["simctl", "spawn", deviceId, "log", "stream"] ++ logFilterFlags
        env := none }

/-- Modelled from the spec: the `screenshot(deviceId)` command line (spec
section 4.1 operation table): preferred `<tool> screenshot --udid <id>
<extra>`, fallback `<fallback> simctl io <id> screenshot`. -/
def screenshotCommand (family : ToolFamily) (deviceId : String)
    (extra : String) : String :=
  match family with
  | .preferred path =>
      path ++ " screenshot --udid " ++ deviceId ++ " " ++ extra
  | .fallback =>
      fallbackTool ++ " simctl io " ++ deviceId ++ " screenshot"

/-- Modelled from the spec: the `navigate(deviceId, url)` command line
(spec section 4.1 operation table): preferred `<tool> open --udid <id>
"<url>"`, fallback `<fallback> simctl io <id> launch url "<url>"`; the
URL is passed verbatim, surrounded by double quotes. -/
def navigateCommand (family : ToolFamily) (deviceId : String)
    (url : String) : String :=
  match family with
  | .preferred path =>
      path ++ " open --udid " ++ deviceId ++ " \"" ++ url ++ "\""
  | .fallback =>
      fallbackTool ++ " simctl io " ++ deviceId ++ " launch url \"" ++ url ++ "\""

/-- Modelled from the spec: the `recordVideo(deviceId, outputPath)`
command line (spec section 4.1 operation table): preferred `<tool>
record-video --udid <id> <outputPath>`, fallback `<fallback> simctl io
<id> recordVideo --codec=h264 --force <outputPath>`. -/
def recordVideoCommand (family : ToolFamily) (deviceId : String)
    (outputPath : String) : String :=
  match family with
  | .preferred path =>
      path ++ " record-video --udid " ++ deviceId ++ " " ++ outputPath
  | .fallback =>
      fallbackTool ++ " simctl io " ++ deviceId ++
        " recordVideo --codec=h264 --force " ++ outputPath

/-- The observable outcome of an external process: exit code and captured
standard error. -/
structure ProcResult where
  exitCode : Int
  stderr : String
deriving DecidableEq, Repr

/-- Modelled from the spec: success/failure of an operation is determined
by process exit status and captured standard error, surfaced as a failure
result rather than silently swallowed (spec sections 4.1 and 7). -/
def completeProcess (r : ProcResult) : Except OpError Unit :=
  if r.exitCode = 0 then .ok ()
  else .error (.processExitedNonZero r.exitCode r.stderr)

/-- Run `startLogListener` against an injectable spawner (spec section 9:
process invocation abstracted behind an injectable interface) and surface
the process outcome. -/
def startLogListenerRun (family : ToolFamily) (deviceId : String)
    (kind : DeviceKind) (spawner : SpawnCall → ProcResult) :
    Except OpError Unit :=
  completeProcess (spawner (startLogListener family deviceId kind))

/-- Run `screenshot` against an injectable command executor and surface
the process outcome. -/
def screenshotRun (family : ToolFamily) (deviceId : String) (extra : String)
    (executor : String → ProcResult) : Except OpError Unit :=
  completeProcess (executor (screenshotCommand family deviceId extra))

/-- Run `navigate` against an injectable command executor and surface the
process outcome. -/
def navigateRun (family : ToolFamily) (deviceId : String) (url : String)
    (executor : String → ProcResult) : Except OpError Unit :=
  completeProcess (executor (navigateCommand family deviceId url))

/-- Run `recordVideo` against an injectable command executor and surface
the process outcome. -/
def recordVideoRun (family : ToolFamily) (deviceId : String)
    (outputPath : String) (executor : String → ProcResult) :
    Except OpError Unit :=
  completeProcess (executor (recordVideoCommand family deviceId outputPath))

/-- The tool a family names: the preferred tool's path, or the fallback
toolchain command. -/
def familyTool (family : ToolFamily) : String :=
  match family with
  | .preferred path => path
  | .fallback => fallbackTool

end IOSBridge

namespace SetupDoctor

/-- `FlipperDoctor.HealthcheckStatus` as used by `SetupDoctorScreen.tsx`:
the five statuses keyed by `statusTypeAndMessage`. -/
inductive HealthcheckStatus where
  | IN_PROGRESS
  | FAILED
  | WARNING
  | SUCCESS
  | SKIPPED
deriving DecidableEq, Repr

/-- A healthcheck result as consumed by `checkHasProblem` and
`checkHasNewProblem`: its status and its acknowledged flag. -/
structure HealthcheckResult where
  status : HealthcheckStatus
  isAcknowledged : Bool
deriving DecidableEq, Repr

/-- The alert type of an antd `Alert`: one of success, info, warning,
error. -/
inductive AlertType where
  | success
  | info
  | warning
  | error
deriving DecidableEq, Repr

/-- The `{type, message}` record held by each entry of
`statusTypeAndMessage`. -/
structure AlertConfig where
  type : AlertType
  message : String
deriving DecidableEq, Repr

/-- The `statusTypeAndMessage` table of `SetupDoctorScreen.tsx`, mapping
each healthcheck status to the alert type and message shown in the status
banner. -/
def statusTypeAndMessage : HealthcheckStatus → AlertConfig
  | .IN_PROGRESS =>
      { type := .info, message := "Doctor is running healthchecks..." }
  | .FAILED =>
      { type := .error
        message := "Problems have been discovered with your installation. Please expand items for details." }
  | .WARNING =>
      { type := .warning
        message := "Doctor has discovered warnings. Please expand items for details." }
  | .SUCCESS =>
      { type := .success
        message := "All good! Doctor has not discovered any issues with your installation." }
  | .SKIPPED =>
      { type := .success
        message := "All good! Doctor has not discovered any issues with your installation." }

/-- `checkHasProblem` from `SetupDoctorScreen.tsx`: the result's status is
FAILED or WARNING. -/
def checkHasProblem (result : HealthcheckResult) : Bool :=
  result.status == .FAILED || result.status == .WARNING

/-- `checkHasNewProblem` from `SetupDoctorScreen.tsx`: a problem that is
not acknowledged. -/
def checkHasNewProblem (result : HealthcheckResult) : Bool :=
  checkHasProblem result && !result.isAcknowledged

end SetupDoctor

namespace IOSBridge

/-- C1: for every bridge handle returned by makeIOSBridge, the operations
all invoke only the tool family chosen at construction: the log-listener
spawn's command is exactly the construction-time family's tool, and each
of the screenshot/navigate/recordVideo command lines begins with that
tool; the operations are pure functions of the construction-time family
and never re-invoke the detector. -/
theorem bridge_ops_use_construction_family (p : String) (hb : Bool)
    (det : Option (String → Bool)) (f : ToolFamily)
    (h : makeIOSBridge p hb det = .ok f)
    (deviceId url outputPath extra : String) (kind : DeviceKind) :
    (startLogListener f deviceId kind).command = familyTool f ∧
    (∃ rest, screenshotCommand f deviceId extra = familyTool f ++ rest) ∧
    (∃ rest, navigateCommand f deviceId url = familyTool f ++ rest) ∧
    (∃ rest, recordVideoCommand f deviceId outputPath = familyTool f ++ rest) := by
  cases f with
  | preferred path =>
      refine ⟨rfl,
        ⟨" screenshot --udid " ++ deviceId ++ " " ++ extra, ?_⟩,
        ⟨" open --udid " ++ deviceId ++ " \"" ++ url ++ "\"", ?_⟩,
        ⟨" record-video --udid " ++ deviceId ++ " " ++ outputPath, ?_⟩⟩ <;>
      simp [screenshotCommand, navigateCommand, recordVideoCommand,
        familyTool, String.append_assoc]
  | fallback =>
      exact ⟨rfl,
        ⟨" simctl io " ++ deviceId ++ " screenshot", rfl⟩,
        ⟨" simctl io " ++ deviceId ++ " launch url \"" ++ url ++ "\"", rfl⟩,
        ⟨" simctl io " ++ deviceId ++
          " recordVideo --codec=h264 --force " ++ outputPath, rfl⟩⟩

/-- Witness for C1 at a concrete preferred-tool construction. -/
theorem bridge_ops_use_construction_family_witness :
    (startLogListener (.preferred "/usr/local/bin/idb") "deadbeef"
        .emulator).command = familyTool (.preferred "/usr/local/bin/idb") ∧
    (∃ rest, screenshotCommand (.preferred "/usr/local/bin/idb") "deadbeef"
        "/tmp/s.png" = familyTool (.preferred "/usr/local/bin/idb") ++ rest) ∧
    (∃ rest, navigateCommand (.preferred "/usr/local/bin/idb") "deadbeef"
        "fb://dummy" = familyTool (.preferred "/usr/local/bin/idb") ++ rest) ∧
    (∃ rest, recordVideoCommand (.preferred "/usr/local/bin/idb") "deadbeef"
        "/tmp/video.mp4" = familyTool (.preferred "/usr/local/bin/idb") ++ rest) :=
  bridge_ops_use_construction_family "/usr/local/bin/idb" true
    (some fun _ => true) (.preferred "/usr/local/bin/idb") rfl
    "deadbeef" "fb://dummy" "/tmp/video.mp4" "/tmp/s.png" .emulator

/-- C2: makeIOSBridge fails with NoToolchainAvailable exactly when the
fallback toolchain is absent and the preferred tool is unusable; in
particular an empty path with hasFallbackToolchain false fails, and a
usable preferred tool or an available fallback toolchain yields a
capability handle. -/
theorem makeIOSBridge_noToolchainAvailable_iff (p : String) (hb : Bool)
    (det : Option (String → Bool)) :
    (makeIOSBridge p hb det = .error .noToolchainAvailable ↔
      hb = false ∧ preferredUsable p det = false) ∧
    (p = "" → hb = false →
      makeIOSBridge p hb det = .error .noToolchainAvailable) ∧
    ((hb = true ∨ preferredUsable p det = true) →
      ∃ f, makeIOSBridge p hb det = .ok f) := by
  refine ⟨?_, ?_, ?_⟩
  · cases h1 : preferredUsable p det <;> cases hb <;>
      simp [makeIOSBridge, h1]
  · intro hp hhb
    subst hp
    subst hhb
    rfl
  · intro hor
    cases h1 : preferredUsable p det with
    | true => exact ⟨.preferred p, by simp [makeIOSBridge, h1]⟩
    | false =>
        cases hb with
        | true => exact ⟨.fallback, by simp [makeIOSBridge, h1]⟩
        | false =>
            rw [h1] at hor
            rcases hor with hor | hor <;> exact absurd hor (by simp)

/-- Witness for C2 at the empty-path, no-fallback construction. -/
theorem makeIOSBridge_noToolchainAvailable_iff_witness :
    makeIOSBridge "" false none = .error .noToolchainAvailable :=
  (makeIOSBridge_noToolchainAvailable_iff "" false none).2.1 rfl rfl

/-- C3: a bridge constructed with an empty preferred-tool path and an
available fallback toolchain makes startLogListener on an emulator spawn
the fallback tool with exactly the simctl log-stream argument vector and
no environment override. -/
theorem startLogListener_fallback_emulator_spawn
    (det : Option (String → Bool)) (deviceId : String) (f : ToolFamily)
    (h : makeIOSBridge "" true det = .ok f) :
    startLogListener f deviceId .emulator =
      { command := "xcrun"
        args := ["simctl", "spawn", deviceId, "log", "stream", "--style",
          "json", "--predicate", "senderImagePath contains \"Containers\"",
          "--debug", "--info"]
        env := none } := by
  have hu : preferredUsable "" det = false := rfl
  have hf : f = .fallback := by
    simp [makeIOSBridge, hu] at h
    exact h.symm
  subst hf
  rfl

/-- Witness for C3 at a concrete device id. -/
theorem startLogListener_fallback_emulator_spawn_witness :
    startLogListener .fallback "deadbeef" .emulator =
      { command := "xcrun"
        args := ["simctl", "spawn", "deadbeef", "log", "stream", "--style",
          "json", "--predicate", "senderImagePath contains \"Containers\"",
          "--debug", "--info"]
        env := none } :=
  startLogListener_fallback_emulator_spawn none "deadbeef" .fallback rfl

/-- C4: a bridge constructed with a non-empty preferred-tool path and a
detector resolving true makes startLogListener on an emulator spawn that
tool with exactly the idb log argument vector and the PYTHONUNBUFFERED=1
environment override; fallback spawns carry no environment override. -/
theorem startLogListener_preferred_emulator_spawn (p : String) (hb : Bool)
    (d : String → Bool) (deviceId : String) (f : ToolFamily)
    (hp : p ≠ "") (hd : d p = true)
    (h : makeIOSBridge p hb (some d) = .ok f) :
    startLogListener f deviceId .emulator =
      { command := p
        args := ["log", "--udid", deviceId, "--", "--style", "json",
          "--predicate", "senderImagePath contains \"Containers\"",
          "--debug", "--info"]
        env := some [("PYTHONUNBUFFERED", "1")] } ∧
    (startLogListener .fallback deviceId .emulator).env = none ∧
    (startLogListener .fallback deviceId .physical).env = none := by
  have hu : preferredUsable p (some d) = true := by
    simp [preferredUsable, hd, bne_iff_ne, hp]
  have hf : f = .preferred p := by
    simp [makeIOSBridge, hu] at h
    exact h.symm
  subst hf
  exact ⟨rfl, rfl, rfl⟩

/-- Witness for C4 at a concrete preferred-tool construction. -/
theorem startLogListener_preferred_emulator_spawn_witness :
    startLogListener (.preferred "/usr/local/bin/idb") "deadbeef" .emulator =
      { command := "/usr/local/bin/idb"
        args := ["log", "--udid", "deadbeef", "--", "--style", "json",
          "--predicate", "senderImagePath contains \"Containers\"",
          "--debug", "--info"]
        env := some [("PYTHONUNBUFFERED", "1")] } ∧
    (startLogListener .fallback "deadbeef" .emulator).env = none ∧
    (startLogListener .fallback "deadbeef" .physical).env = none :=
  startLogListener_preferred_emulator_spawn "/usr/local/bin/idb" true
    (fun _ => true) "deadbeef" (.preferred "/usr/local/bin/idb")
    (by decide) rfl rfl

/-- C5: with the preferred tool selected, startLogListener on a physical
device spawns the tool with only the log/udid arguments — the filter
flags are dropped, not substituted — and the operation succeeds (a
successful process completes as ok, no error is raised for the reduced
functionality). -/
theorem startLogListener_preferred_physical_spawn (p : String) (hb : Bool)
    (d : String → Bool) (deviceId : String) (f : ToolFamily)
    (spawner : SpawnCall → ProcResult)
    (hp : p ≠ "") (hd : d p = true)
    (h : makeIOSBridge p hb (some d) = .ok f)
    (hs : (spawner (startLogListener f deviceId .physical)).exitCode = 0) :
    startLogListener f deviceId .physical =
      { command := p
        args := ["log", "--udid", deviceId, "--"]
        env := some [("PYTHONUNBUFFERED", "1")] } ∧
    startLogListenerRun f deviceId .physical spawner = .ok () := by
  have hu : preferredUsable p (some d) = true := by
    simp [preferredUsable, hd, bne_iff_ne, hp]
  have hf : f = .preferred p := by
    simp [makeIOSBridge, hu] at h
    exact h.symm
  subst hf
  refine ⟨rfl, ?_⟩
  simp [startLogListenerRun, completeProcess, hs]

/-- Witness for C5 at a concrete preferred-tool construction and a
zero-exit spawner. -/
theorem startLogListener_preferred_physical_spawn_witness :
    startLogListener (.preferred "/usr/local/bin/idb") "deadbeef" .physical =
      { command := "/usr/local/bin/idb"
        args := ["log", "--udid", "deadbeef", "--"]
        env := some [("PYTHONUNBUFFERED", "1")] } ∧
    startLogListenerRun (.preferred "/usr/local/bin/idb") "deadbeef"
      .physical (fun _ => ⟨0, ""⟩) = .ok () :=
  startLogListener_preferred_physical_spawn "/usr/local/bin/idb" true
    (fun _ => true) "deadbeef" (.preferred "/usr/local/bin/idb")
    (fun _ => ⟨0, ""⟩) (by decide) rfl rfl rfl

/-- C6: for all four operations, under either tool family and any
process behaviour, a non-zero exit of the spawned external process
surfaces to the caller as a ProcessExitedNonZero error result carrying
the exit code and captured standard error. -/
theorem nonzero_exit_surfaces_failure (f : ToolFamily)
    (deviceId url outputPath extra : String) (kind : DeviceKind)
    (spawner : SpawnCall → ProcResult) (executor : String → ProcResult) :
    ((spawner (startLogListener f deviceId kind)).exitCode ≠ 0 →
      startLogListenerRun f deviceId kind spawner =
        .error (.processExitedNonZero
          (spawner (startLogListener f deviceId kind)).exitCode
          (spawner (startLogListener f deviceId kind)).stderr)) ∧
    ((executor (screenshotCommand f deviceId extra)).exitCode ≠ 0 →
      screenshotRun f deviceId extra executor =
        .error (.processExitedNonZero
          (executor (screenshotCommand f deviceId extra)).exitCode
          (executor (screenshotCommand f deviceId extra)).stderr)) ∧
    ((executor (navigateCommand f deviceId url)).exitCode ≠ 0 →
      navigateRun f deviceId url executor =
        .error (.processExitedNonZero
          (executor (navigateCommand f deviceId url)).exitCode
          (executor (navigateCommand f deviceId url)).stderr)) ∧
    ((executor (recordVideoCommand f deviceId outputPath)).exitCode ≠ 0 →
      recordVideoRun f deviceId outputPath executor =
        .error (.processExitedNonZero
          (executor (recordVideoCommand f deviceId outputPath)).exitCode
          (executor (recordVideoCommand f deviceId outputPath)).stderr)) := by
  refine ⟨?_, ?_, ?_, ?_⟩ <;> intro hne <;>
    simp [startLogListenerRun, screenshotRun, navigateRun, recordVideoRun,
      completeProcess, hne]

/-- Witness for C6: a process exiting 1 with stderr makes screenshot
fail with the corresponding typed error. -/
theorem nonzero_exit_surfaces_failure_witness :
    screenshotRun .fallback "deadbeef" "/tmp/s.png" (fun _ => ⟨1, "boom"⟩) =
      .error (.processExitedNonZero 1 "boom") :=
  (nonzero_exit_surfaces_failure .fallback "deadbeef" "fb://dummy"
    "/tmp/video.mp4" "/tmp/s.png" .emulator (fun _ => ⟨1, "boom"⟩)
    (fun _ => ⟨1, "boom"⟩)).2.1 (by decide)

/-- C7: under a preferred-tool construction navigate runs
`<tool> open --udid <id> "<url>"`, and under a fallback construction it
runs `<fallback> simctl io <id> launch url "<url>"`; the URL is passed
verbatim between double quotes. -/
theorem navigate_command_shapes (p : String) (hb : Bool)
    (d : String → Bool) (det : Option (String → Bool))
    (deviceId url : String) (fp ff : ToolFamily)
    (hp : p ≠ "") (hd : d p = true)
    (h1 : makeIOSBridge p hb (some d) = .ok fp)
    (h2 : makeIOSBridge "" true det = .ok ff) :
    navigateCommand fp deviceId url =
      p ++ " open --udid " ++ deviceId ++ " \"" ++ url ++ "\"" ∧
    navigateCommand ff deviceId url =
      "xcrun simctl io " ++ deviceId ++ " launch url \"" ++ url ++ "\"" := by
  have hu : preferredUsable p (some d) = true := by
    simp [preferredUsable, hd, bne_iff_ne, hp]
  have hfp : fp = .preferred p := by
    simp [makeIOSBridge, hu] at h1
    exact h1.symm
  have hu2 : preferredUsable "" det = false := rfl
  have hff : ff = .fallback := by
    simp [makeIOSBridge, hu2] at h2
    exact h2.symm
  subst hfp
  subst hff
  exact ⟨rfl, rfl⟩

/-- Witness for C7 at the concrete device and URL of the test suite. -/
theorem navigate_command_shapes_witness :
    navigateCommand (.preferred "/usr/local/bin/idb") "deadbeef" "fb://dummy" =
      "/usr/local/bin/idb" ++ " open --udid " ++ "deadbeef" ++ " \"" ++
        "fb://dummy" ++ "\"" ∧
    navigateCommand .fallback "deadbeef" "fb://dummy" =
      "xcrun simctl io " ++ "deadbeef" ++ " launch url \"" ++
        "fb://dummy" ++ "\"" :=
  navigate_command_shapes "/usr/local/bin/idb" true (fun _ => true) none
    "deadbeef" "fb://dummy" (.preferred "/usr/local/bin/idb") .fallback
    (by decide) rfl rfl rfl

/-- C8: under a preferred-tool construction recordVideo runs
`<tool> record-video --udid <id> <outputPath>`, and under a fallback
construction it runs
`<fallback> simctl io <id> recordVideo --codec=h264 --force <outputPath>`. -/
theorem recordVideo_command_shapes (p : String) (hb : Bool)
    (d : String → Bool) (det : Option (String → Bool))
    (deviceId outputPath : String) (fp ff : ToolFamily)
    (hp : p ≠ "") (hd : d p = true)
    (h1 : makeIOSBridge p hb (some d) = .ok fp)
    (h2 : makeIOSBridge "" true det = .ok ff) :
    recordVideoCommand fp deviceId outputPath =
      p ++ " record-video --udid " ++ deviceId ++ " " ++ outputPath ∧
    recordVideoCommand ff deviceId outputPath =
      "xcrun simctl io " ++ deviceId ++
        " recordVideo --codec=h264 --force " ++ outputPath := by
  have hu : preferredUsable p (some d) = true := by
    simp [preferredUsable, hd, bne_iff_ne, hp]
  have hfp : fp = .preferred p := by
    simp [makeIOSBridge, hu] at h1
    exact h1.symm
  have hu2 : preferredUsable "" det = false := rfl
  have hff : ff = .fallback := by
    simp [makeIOSBridge, hu2] at h2
    exact h2.symm
  subst hfp
  subst hff
  exact ⟨rfl, rfl⟩

/-- Witness for C8 at the concrete device and output path of the test
suite. -/
theorem recordVideo_command_shapes_witness :
    recordVideoCommand (.preferred "/usr/local/bin/idb") "deadbeef"
      "/tmp/video.mp4" =
      "/usr/local/bin/idb" ++ " record-video --udid " ++ "deadbeef" ++
        " " ++ "/tmp/video.mp4" ∧
    recordVideoCommand .fallback "deadbeef" "/tmp/video.mp4" =
      "xcrun simctl io " ++ "deadbeef" ++
        " recordVideo --codec=h264 --force " ++ "/tmp/video.mp4" :=
  recordVideo_command_shapes "/usr/local/bin/idb" true (fun _ => true) none
    "deadbeef" "/tmp/video.mp4" (.preferred "/usr/local/bin/idb") .fallback
    (by decide) rfl rfl rfl

end IOSBridge

namespace SetupDoctor

/-- C9: checkHasNewProblem returns true exactly when the result's status
is FAILED or WARNING and the result is not acknowledged; every other
status, and every acknowledged result, yields false. -/
theorem checkHasNewProblem_iff (result : HealthcheckResult) :
    checkHasNewProblem result = true ↔
      ((result.status = .FAILED ∨ result.status = .WARNING) ∧
        result.isAcknowledged = false) := by
  obtain ⟨s, a⟩ := result
  cases s <;> cases a <;> decide

/-- C10: the status banner table maps SKIPPED and SUCCESS to the same
entry — alert type success with the message that Doctor found no
issues. -/
theorem statusTypeAndMessage_skipped_as_success :
    statusTypeAndMessage .SKIPPED = statusTypeAndMessage .SUCCESS ∧
    statusTypeAndMessage .SKIPPED =
      { type := .success
        message := "All good! Doctor has not discovered any issues with your installation." } :=
  ⟨rfl, rfl⟩

end SetupDoctor
